import Mathlib

/-!
Shallow embedding of the heat-exchanger design tool's calculation engine
(`src/app.py`).  The engine is the module-level calculation block
(lines 165-201), the classification branch of `effectiveness_gauge`
(lines 15-26), and the temperature-profile sampling (lines 237-244).

Modelling conventions:
* Python float values are modelled as exact rationals (ℚ); every Python
  float is a rational number, and none of the claims under study concerns
  rounding.  The two quantities that genuinely involve the transcendental
  `np.log` (`LMTD`, and through it `A` and `NTU`) are modelled over ℝ,
  with Mathlib's total `Real.log`.
* Where a zero denominator matters, plain Python float division raises
  `ZeroDivisionError`; the fallible variants below return `Option`
  (`none` = the division raises).  The total variants use the field's
  total division (x / 0 = 0) and are only ever applied where the
  denominator is provably nonzero.
-/

namespace HeatExchanger

/-- Flow configuration chosen by the sidebar radio button
(`"Counterflow"` / `"Parallel Flow"`, line 92-96 of `src/app.py`). -/
inductive Config where
  | Counterflow
  | ParallelFlow
deriving DecidableEq

/-- The input record: the nine number inputs of the form
(lines 108-157 of `src/app.py`). -/
structure Input where
  Th_in : ℚ
  Th_out : ℚ
  m_hot : ℚ
  Cp_hot : ℚ
  Tc_in : ℚ
  Tc_out : ℚ
  m_cold : ℚ
  Cp_cold : ℚ
  U : ℚ
deriving DecidableEq

/-- Line 165: `Q_hot = m_hot * Cp_hot * (Th_in - Th_out)` (kW). -/
def Q_hot (i : Input) : ℚ := i.m_hot * i.Cp_hot * (i.Th_in - i.Th_out)

/-- Line 166: `Q_cold = m_cold * Cp_cold * (Tc_out - Tc_in)` (kW). -/
def Q_cold (i : Input) : ℚ := i.m_cold * i.Cp_cold * (i.Tc_out - i.Tc_in)

/-- Line 167: `Q_avg = (Q_hot + Q_cold) / 2`. -/
def Q_avg (i : Input) : ℚ := (Q_hot i + Q_cold i) / 2

/-- Line 168: `Q = Q_avg * 1000` (W). -/
def Q (i : Input) : ℚ := Q_avg i * 1000

/-- Lines 171-176: `dT1`, branching on the configuration. -/
def dT1 (cfg : Config) (i : Input) : ℚ :=
  match cfg with
  | .Counterflow => i.Th_in - i.Tc_out
  | .ParallelFlow => i.Th_in - i.Tc_in

/-- Lines 171-176: `dT2`, branching on the configuration. -/
def dT2 (cfg : Config) (i : Input) : ℚ :=
  match cfg with
  | .Counterflow => i.Th_out - i.Tc_in
  | .ParallelFlow => i.Th_out - i.Tc_out

/-- Lines 178-181: `LMTD = dT1` if `abs(dT1 - dT2) < 1e-6`, else
`(dT1 - dT2) / np.log(dT1 / dT2)`.  Real-valued because of the
logarithm. -/
noncomputable def LMTD (cfg : Config) (i : Input) : ℝ :=
  if |dT1 cfg i - dT2 cfg i| < 1e-6 then (dT1 cfg i : ℝ)
  else ((dT1 cfg i : ℝ) - (dT2 cfg i : ℝ)) /
    Real.log ((dT1 cfg i : ℝ) / (dT2 cfg i : ℝ))

/-- Line 184: `A = Q / (U * LMTD)`. -/
noncomputable def A (cfg : Config) (i : Input) : ℝ :=
  (Q i : ℝ) / ((i.U : ℝ) * LMTD cfg i)

/-- Line 187: `C_hot = m_hot * Cp_hot * 1000` (W/K). -/
def C_hot (i : Input) : ℚ := i.m_hot * i.Cp_hot * 1000

/-- Line 188: `C_cold = m_cold * Cp_cold * 1000` (W/K). -/
def C_cold (i : Input) : ℚ := i.m_cold * i.Cp_cold * 1000

/-- Line 189: `C_min = min(C_hot, C_cold)`. -/
def C_min (i : Input) : ℚ := min (C_hot i) (C_cold i)

/-- Line 190: `C_max = max(C_hot, C_cold)`. -/
def C_max (i : Input) : ℚ := max (C_hot i) (C_cold i)

/-- Line 191: `C_ratio = C_min / C_max`. -/
def C_ratio (i : Input) : ℚ := C_min i / C_max i

/-- Line 194: `Q_max = C_min * (Th_in - Tc_in)`. -/
def Q_max (i : Input) : ℚ := C_min i * (i.Th_in - i.Tc_in)

/-- Line 195: `effectiveness = Q / Q_max` (total-division version). -/
def effectiveness (i : Input) : ℚ := Q i / Q_max i

/-- Line 198: `NTU = (U * A) / C_min`. -/
noncomputable def NTU (cfg : Config) (i : Input) : ℝ :=
  (i.U : ℝ) * A cfg i / (C_min i : ℝ)

/-- Line 201: `heat_balance_error = abs(Q_hot - Q_cold) / Q_avg * 100`
(total-division version). -/
def heat_balance_error (i : Input) : ℚ :=
  |Q_hot i - Q_cold i| / Q_avg i * 100

/-- Python float division: raises `ZeroDivisionError` (here: `none`)
when the denominator is exactly zero, otherwise exact quotient. -/
def divE (a b : ℚ) : Option ℚ := if b = 0 then none else some (a / b)

/-- Line 195 with Python's division semantics: `Q / Q_max` raises
`ZeroDivisionError` exactly when `Q_max == 0`. -/
def effectivenessE (i : Input) : Option ℚ := divE (Q i) (Q_max i)

/-- Line 201 with Python's division semantics: `abs(Q_hot - Q_cold) / Q_avg`
raises `ZeroDivisionError` exactly when `Q_avg == 0`. -/
def heat_balance_errorE (i : Input) : Option ℚ :=
  (divE |Q_hot i - Q_cold i| (Q_avg i)).map (fun e => e * 100)

/-- The result record of one evaluation: all variables assigned by the
calculation block, lines 165-201 of `src/app.py`. -/
structure Result where
  Q_hot : ℚ
  Q_cold : ℚ
  Q_avg : ℚ
  Q : ℚ
  dT1 : ℚ
  dT2 : ℚ
  LMTD : ℝ
  A : ℝ
  C_hot : ℚ
  C_cold : ℚ
  C_min : ℚ
  C_max : ℚ
  C_ratio : ℚ
  Q_max : ℚ
  effectiveness : ℚ
  NTU : ℝ
  heat_balance_error : ℚ

/-- One pass of the calculation block, lines 165-201 of `src/app.py`,
assembled into the result record. -/
noncomputable def evaluate (cfg : Config) (i : Input) : Result where
  Q_hot := Q_hot i
  Q_cold := Q_cold i
  Q_avg := Q_avg i
  Q := Q i
  dT1 := dT1 cfg i
  dT2 := dT2 cfg i
  LMTD := LMTD cfg i
  A := A cfg i
  C_hot := C_hot i
  C_cold := C_cold i
  C_min := C_min i
  C_max := C_max i
  C_ratio := C_ratio i
  Q_max := Q_max i
  effectiveness := effectiveness i
  NTU := NTU cfg i
  heat_balance_error := heat_balance_error i

/-- The performance-classification branch of `effectiveness_gauge`
(lines 15-26 of `src/app.py`): a top-down threshold lookup on the
effectiveness percentage, returning the label and the gauge colour. -/
def classify (e : ℚ) : String × String :=
  if e ≥ 80 then ("Excellent", "green")
  else if e ≥ 60 then ("Good", "limegreen")
  else if e ≥ 40 then ("Fair", "orange")
  else ("Poor", "red")

/-- Model of `np.linspace(0, 1, n)` (line 237 of `src/app.py`):
`n` evenly spaced samples of `[0, 1]`, endpoints included. -/
def linspace (n : ℕ) : List ℚ :=
  (List.range n).map (fun k : ℕ => (k : ℚ) / ((n : ℚ) - 1))

/-- Hot-side profile (lines 240/243): `Th(x) = Th_in - (Th_in - Th_out) * x`. -/
def Th_profile (i : Input) (x : ℚ) : ℚ := i.Th_in - (i.Th_in - i.Th_out) * x

/-- Cold-side profile (lines 241/244), branching on the configuration:
counterflow `Tc(x) = Tc_out - (Tc_out - Tc_in) * x`,
parallel flow `Tc(x) = Tc_in + (Tc_out - Tc_in) * x`. -/
def Tc_profile (cfg : Config) (i : Input) (x : ℚ) : ℚ :=
  match cfg with
  | .Counterflow => i.Tc_out - (i.Tc_out - i.Tc_in) * x
  | .ParallelFlow => i.Tc_in + (i.Tc_out - i.Tc_in) * x

/-- The temperature-profile sequence (lines 237-244 of `src/app.py`):
samples `(x, Th(x), Tc(x))` over `linspace n`; the source fixes
`n = 50`. -/
def profile (cfg : Config) (i : Input) (n : ℕ) : List (ℚ × ℚ × ℚ) :=
  (linspace n).map (fun x => (x, Th_profile i x, Tc_profile cfg i x))

/-- The default input of the form: `Th_in=150, Th_out=90, m_hot=2.5,
Cp_hot=4.18, Tc_in=25, Tc_out=70, m_cold=3.0, Cp_cold=4.18, U=500`. -/
def i0 : Input where
  Th_in := 150
  Th_out := 90
  m_hot := 2.5
  Cp_hot := 4.18
  Tc_in := 25
  Tc_out := 70
  m_cold := 3
  Cp_cold := 4.18
  U := 500

/-- Default input with `Tc_out = 85`, so that the counterflow deltas
are degenerate (`dT1 = dT2 = 65`) while the parallel-flow ones are not. -/
def iDeg : Input := { i0 with Tc_out := 85 }

/-- Default input with `Tc_out = 25 = Tc_in`: both configurations give
the same temperature deltas. -/
def iEq : Input := { i0 with Tc_out := 25 }

/-- Input with `Th_out = Th_in` and `Tc_out = Tc_in`: both duties are
zero, hence `Q_avg = 0`. -/
def iZero : Input := { i0 with Th_out := 150, Tc_out := 25 }

/-- Claim C5: for every input and configuration with `|dT1 - dT2| < 1e-6`,
the computed `LMTD` equals `dT1` exactly — the degenerate branch performs
no division and no logarithm and is not an error. -/
theorem lmtd_degenerate_eq_dT1 (cfg : Config) (i : Input)
    (h : |dT1 cfg i - dT2 cfg i| < 1e-6) : LMTD cfg i = (dT1 cfg i : ℝ) := by
  unfold LMTD
  rw [if_pos h]

/-- Witness for C5: the counterflow deltas of `iDeg` are degenerate and its
`LMTD` equals `dT1`. -/
theorem lmtd_degenerate_eq_dT1_witness :
    |dT1 .Counterflow iDeg - dT2 .Counterflow iDeg| < 1e-6 ∧
      LMTD .Counterflow iDeg = (dT1 .Counterflow iDeg : ℝ) := by
  have h : |dT1 .Counterflow iDeg - dT2 .Counterflow iDeg| < 1e-6 := by
    norm_num [dT1, dT2, iDeg, i0]
  exact ⟨h, lmtd_degenerate_eq_dT1 .Counterflow iDeg h⟩

/-- Claim C7: for every input with positive mass flow rates and specific
heats, `C_ratio = C_min / C_max` lies in `(0, 1]`, and `C_ratio = 1` iff
`C_hot = C_cold`. -/
theorem c_ratio_unit_interval (i : Input) (h1 : 0 < i.m_hot)
    (h2 : 0 < i.Cp_hot) (h3 : 0 < i.m_cold) (h4 : 0 < i.Cp_cold) :
    (0 < C_ratio i ∧ C_ratio i ≤ 1) ∧ (C_ratio i = 1 ↔ C_hot i = C_cold i) := by
  have hh : 0 < C_hot i := by unfold C_hot; positivity
  have hc : 0 < C_cold i := by unfold C_cold; positivity
  have hmin : 0 < C_min i := by unfold C_min; exact lt_min hh hc
  have hmax : 0 < C_max i := by
    unfold C_max; exact lt_of_lt_of_le hh (le_max_left _ _)
  refine ⟨⟨div_pos hmin hmax, ?_⟩, ?_⟩
  · unfold C_ratio
    exact (div_le_one hmax).2 (by unfold C_min C_max; exact min_le_max)
  · unfold C_ratio
    rw [div_eq_one_iff_eq hmax.ne']
    constructor
    · intro h
      rcases le_total (C_hot i) (C_cold i) with hle | hle
      · rw [C_min, C_max, min_eq_left hle, max_eq_right hle] at h
        exact h
      · rw [C_min, C_max, min_eq_right hle, max_eq_left hle] at h
        exact h.symm
    · intro h
      rw [C_min, C_max, h, min_self, max_self]

/-- Witness for C7: at the default input, `C_ratio = 10450/12540 = 5/6`
lies in `(0, 1]` and differs from `1` exactly as `C_hot` differs from
`C_cold`. -/
theorem c_ratio_unit_interval_witness :
    (0 < C_ratio i0 ∧ C_ratio i0 ≤ 1) ∧ (C_ratio i0 = 1 ↔ C_hot i0 = C_cold i0) :=
  c_ratio_unit_interval i0 (by norm_num [i0]) (by norm_num [i0])
    (by norm_num [i0]) (by norm_num [i0])

/-- Claim C9: the performance classifier is a top-down threshold lookup
on the effectiveness percentage: `≥ 80 → "Excellent"`, `[60, 80) → "Good"`,
`[40, 60) → "Fair"`, otherwise `"Poor"`; in particular
`classify 85 = "Excellent"`, `classify 60 = "Good"`,
`classify 39.9 = "Poor"`. -/
theorem classify_thresholds (e : ℚ) :
    (80 ≤ e → classify e = ("Excellent", "green")) ∧
    (60 ≤ e → e < 80 → classify e = ("Good", "limegreen")) ∧
    (40 ≤ e → e < 60 → classify e = ("Fair", "orange")) ∧
    (e < 40 → classify e = ("Poor", "red")) ∧
    (classify 85).1 = "Excellent" ∧ (classify 60).1 = "Good" ∧
    (classify (39.9 : ℚ)).1 = "Poor" := by
  refine ⟨fun h => ?_, fun hl hu => ?_, fun hl hu => ?_, fun h => ?_,
    by norm_num [classify], by norm_num [classify], by norm_num [classify]⟩
  · rw [classify, if_pos h]
  · rw [classify, if_neg (not_le.2 hu), if_pos hl]
  · rw [classify, if_neg (not_le.2 (by linarith)), if_neg (not_le.2 hu), if_pos hl]
  · rw [classify, if_neg (not_le.2 (by linarith)), if_neg (not_le.2 (by linarith)),
      if_neg (not_le.2 h)]

/-- Witness for C9: `classify 85` returns the `"Excellent"` label and
`classify 45` the `"Fair"` label. -/
theorem classify_thresholds_witness :
    classify 85 = ("Excellent", "green") ∧ classify 45 = ("Fair", "orange") :=
  ⟨(classify_thresholds 85).1 (by norm_num),
    (classify_thresholds 45).2.2.1 (by norm_num) (by norm_num)⟩

/-- Claim C6: the effectiveness computation `Q / Q_max` (Python float
division) raises exactly when `Q_max = 0`; given positive flow rates and
specific heats that happens exactly when `Th_in = Tc_in`, and for
`Th_in ≠ Tc_in` it returns `Q / Q_max` without error. -/
theorem effectiveness_fails_iff (i : Input) (h1 : 0 < i.m_hot)
    (h2 : 0 < i.Cp_hot) (h3 : 0 < i.m_cold) (h4 : 0 < i.Cp_cold) :
    (effectivenessE i = none ↔ i.Th_in = i.Tc_in) ∧
      (i.Th_in ≠ i.Tc_in → effectivenessE i = some (Q i / Q_max i)) := by
  have hh : 0 < C_hot i := by unfold C_hot; positivity
  have hc : 0 < C_cold i := by unfold C_cold; positivity
  have hmin : 0 < C_min i := by unfold C_min; exact lt_min hh hc
  have hQmax : Q_max i = 0 ↔ i.Th_in = i.Tc_in := by
    unfold Q_max
    rw [mul_eq_zero]
    constructor
    · rintro (h | h)
      · exact absurd h hmin.ne'
      · linarith [sub_eq_zero.1 h]
    · intro h
      right
      rw [h, sub_self]
  have he : effectivenessE i
      = if Q_max i = 0 then none else some (Q i / Q_max i) := rfl
  constructor
  · rw [he]
    by_cases h : Q_max i = 0
    · rw [if_pos h]
      simp [hQmax.1 h]
    · rw [if_neg h]
      exact ⟨fun hco => absurd hco (by simp), fun hq => absurd (hQmax.2 hq) h⟩
  · intro hne
    rw [he, if_neg (fun h0 => hne (hQmax.1 h0))]

/-- Witness for C6: at the default input (`Th_in = 150 ≠ 25 = Tc_in`) the
effectiveness computation succeeds with value `Q / Q_max = 0.456`. -/
theorem effectiveness_fails_iff_witness :
    effectivenessE i0 = some (Q i0 / Q_max i0) :=
  (effectiveness_fails_iff i0 (by norm_num [i0]) (by norm_num [i0])
    (by norm_num [i0]) (by norm_num [i0])).2 (by norm_num [i0])

/-- Counterexample to claim C4: at an input with positive flows and equal
inlet/outlet temperatures on both sides, `Q_hot = Q_cold` holds but the
heat-balance-error line divides by `Q_avg = 0` and raises
`ZeroDivisionError` instead of yielding `0`. -/
theorem heat_balance_zero_counterexample :
    (0 < iZero.m_hot ∧ 0 < iZero.Cp_hot ∧ 0 < iZero.m_cold ∧ 0 < iZero.Cp_cold) ∧
    Q_hot iZero = Q_cold iZero ∧
    heat_balance_errorE iZero = none ∧
    heat_balance_errorE iZero ≠ some 0 := by
  have h : heat_balance_errorE iZero = none := by
    norm_num [heat_balance_errorE, divE, Q_avg, Q_hot, Q_cold, iZero, i0]
  refine ⟨by norm_num [iZero, i0], by norm_num [Q_hot, Q_cold, iZero, i0],
    h, by rw [h]; simp⟩

/-- Claim C4, amended: for every input with positive mass flow rates and
specific heats *and a nonzero average duty*, the heat-balance error is `0`
iff `Q_hot = Q_cold` exactly; when `Q_avg = 0` the computation raises
`ZeroDivisionError` instead. -/
theorem heat_balance_zero_iff (i : Input) (_h1 : 0 < i.m_hot)
    (_h2 : 0 < i.Cp_hot) (_h3 : 0 < i.m_cold) (_h4 : 0 < i.Cp_cold)
    (h5 : Q_avg i ≠ 0) :
    heat_balance_errorE i = some 0 ↔ Q_hot i = Q_cold i := by
  unfold heat_balance_errorE divE
  rw [if_neg h5]
  rw [Option.map_some']
  rw [Option.some_inj, mul_eq_zero, div_eq_zero_iff, abs_eq_zero, sub_eq_zero]
  simp [h5]

/-- Witness for C4 (amended): at the default input `Q_avg = 595.65 ≠ 0`,
and both sides of the equivalence are false (`Q_hot = 627 ≠ 564.3 = Q_cold`
and the error is `200/19`, not `0`). -/
theorem heat_balance_zero_iff_witness :
    heat_balance_errorE i0 = some 0 ↔ Q_hot i0 = Q_cold i0 :=
  heat_balance_zero_iff i0 (by norm_num [i0]) (by norm_num [i0])
    (by norm_num [i0]) (by norm_num [i0])
    (by norm_num [Q_avg, Q_hot, Q_cold, i0])

/-- Counterexample to claim C1: at the stated counterflow reference input,
`Q_cold = 3.0 * 4.18 * (70 - 25) = 564.3 kW`, not `627 kW`; the two duties
disagree, the heat-balance error is `200/19 ≈ 10.53 %`, not `0`, and the
effectiveness is `0.456`, not `≈ 0.480`. -/
theorem reference_case_counterexample :
    Q_cold i0 = 564.3 ∧ Q_cold i0 ≠ 627 ∧ Q_hot i0 ≠ Q_cold i0 ∧
    heat_balance_error i0 = 200 / 19 ∧ heat_balance_error i0 ≠ 0 ∧
    effectiveness i0 = 0.456 ∧ effectiveness i0 ≠ 0.480 := by
  refine ⟨by norm_num [Q_cold, i0], by norm_num [Q_cold, i0],
    by norm_num [Q_hot, Q_cold, i0], ?_, ?_, ?_, ?_⟩ <;>
  norm_num [heat_balance_error, effectiveness, Q, Q_avg, Q_hot, Q_cold, Q_max,
    C_min, C_hot, C_cold, i0, abs_of_nonneg]

/-- Numeric lower bound on the logarithm appearing in the reference
LMTD, from the degree-4 Taylor bound on `exp`. -/
lemma log_16_13_gt : (0.2076 : ℝ) < Real.log (16 / 13) := by
  rw [Real.lt_log_iff_exp_lt (by norm_num : (0:ℝ) < 16 / 13)]
  have h := @Real.exp_bound' (0.2076 : ℝ) (by norm_num) (by norm_num) 4 (by norm_num)
  refine lt_of_le_of_lt h ?_
  rw [Finset.sum_range_succ, Finset.sum_range_succ, Finset.sum_range_succ,
    Finset.sum_range_succ, Finset.sum_range_zero]
  norm_num [Nat.factorial]

/-- Numeric upper bound on the logarithm appearing in the reference
LMTD, from the degree-5 partial sum of the `exp` series. -/
lemma log_16_13_lt : Real.log (16 / 13) < 0.2077 := by
  rw [Real.log_lt_iff_lt_exp (by norm_num : (0:ℝ) < 16 / 13)]
  refine lt_of_lt_of_le ?_
    (Real.sum_le_exp_of_nonneg (by norm_num : (0:ℝ) ≤ 0.2077) 5)
  rw [Finset.sum_range_succ, Finset.sum_range_succ, Finset.sum_range_succ,
    Finset.sum_range_succ, Finset.sum_range_succ, Finset.sum_range_zero]
  norm_num [Nat.factorial]

/-- Numeric lower bound on `log 25`, via `log 16 = 4 log 2`. -/
lemma log_25_gt : (2.772 : ℝ) < Real.log 25 := by
  have h2 := Real.log_two_gt_d9
  have h16 : Real.log 16 < Real.log 25 := Real.log_lt_log (by norm_num) (by norm_num)
  have e16 : Real.log 16 = 4 * Real.log 2 := by
    rw [show (16:ℝ) = 2 ^ 4 by norm_num, Real.log_pow]
    push_cast
    ring
  nlinarith

/-- The counterflow LMTD of the default input in closed form. -/
lemma lmtd_i0_counterflow : LMTD .Counterflow i0 = 15 / Real.log (16 / 13) := by
  have hcond : ¬ |dT1 .Counterflow i0 - dT2 .Counterflow i0| < 1e-6 := by
    norm_num [dT1, dT2, i0]
  have e1 : dT1 .Counterflow i0 = 80 := by norm_num [dT1, i0]
  have e2 : dT2 .Counterflow i0 = 65 := by norm_num [dT2, i0]
  unfold LMTD
  rw [if_neg hcond, e1, e2]
  push_cast
  rw [show ((80:ℝ) - 65) = 15 by norm_num, show ((80:ℝ) / 65) = 16 / 13 by norm_num]

/-- Rational enclosure of the counterflow LMTD of the default input. -/
lemma lmtd_i0_bounds :
    72.219 < LMTD .Counterflow i0 ∧ LMTD .Counterflow i0 < 72.255 := by
  rw [lmtd_i0_counterflow]
  have hgt := log_16_13_gt
  have hlt := log_16_13_lt
  have hpos : (0:ℝ) < Real.log (16 / 13) := lt_trans (by norm_num) hgt
  constructor
  · have low : (15:ℝ) / 0.2077 < 15 / Real.log (16 / 13) :=
      div_lt_div_of_pos_left (by norm_num) hpos hlt
    refine lt_trans ?_ low
    norm_num
  · have high : (15:ℝ) / Real.log (16 / 13) < 15 / 0.2076 :=
      div_lt_div_of_pos_left (by norm_num) (by norm_num) hgt
    refine lt_trans high ?_
    norm_num

/-- Cast evaluations at the default input. -/
lemma q_i0_cast : (Q i0 : ℝ) = 595650 := by
  norm_num [Q, Q_avg, Q_hot, Q_cold, i0]

lemma u_i0_cast : (i0.U : ℝ) = 500 := by norm_num [i0]

lemma cmin_i0_cast : (C_min i0 : ℝ) = 10450 := by
  norm_num [C_min, C_hot, C_cold, i0]

/-- Rational enclosure of the required area at the default input. -/
lemma a_i0_bounds : 16.484 < A .Counterflow i0 ∧ A .Counterflow i0 < 16.496 := by
  obtain ⟨h1, h2⟩ := lmtd_i0_bounds
  unfold A
  rw [q_i0_cast, u_i0_cast]
  have hpos : (0:ℝ) < 500 * LMTD .Counterflow i0 := by nlinarith
  constructor
  · rw [lt_div_iff₀ hpos]
    nlinarith
  · rw [div_lt_iff₀ hpos]
    nlinarith

/-- Rational enclosure of the NTU at the default input. -/
lemma ntu_i0_bounds :
    0.7887 < NTU .Counterflow i0 ∧ NTU .Counterflow i0 < 0.7893 := by
  obtain ⟨h1, h2⟩ := a_i0_bounds
  unfold NTU
  rw [u_i0_cast, cmin_i0_cast]
  constructor
  · rw [lt_div_iff₀ (by norm_num : (0:ℝ) < 10450)]
    nlinarith
  · rw [div_lt_iff₀ (by norm_num : (0:ℝ) < 10450)]
    nlinarith

/-- Claim C1, amended: at the counterflow reference input the engine gives
`Q_hot = 627` but `Q_cold = 564.3` (the claimed `Q_hot = Q_cold = 627` is
wrong), `dT1 = 80`, `dT2 = 65`, `LMTD ≈ 72.24` (not `72.36`),
`A ≈ 16.49` (not `17.33`), `C_min = C_hot = 10450`,
`C_ratio = 10450/12540`, `effectiveness = 0.456` (not `0.480`),
`NTU ≈ 0.789` (not `0.830`), and `heat_balance_error = 200/19 ≈ 10.53 %`
(not `0`). -/
theorem reference_case_amended :
    Q_hot i0 = 627 ∧ Q_cold i0 = 564.3 ∧
    dT1 .Counterflow i0 = 80 ∧ dT2 .Counterflow i0 = 65 ∧
    |LMTD .Counterflow i0 - 72.24| < 0.03 ∧
    |A .Counterflow i0 - 16.49| < 0.02 ∧
    C_min i0 = C_hot i0 ∧ C_hot i0 = 10450 ∧
    C_ratio i0 = 10450 / 12540 ∧
    effectiveness i0 = 0.456 ∧
    |NTU .Counterflow i0 - 0.789| < 0.001 ∧
    heat_balance_error i0 = 200 / 19 := by
  refine ⟨by norm_num [Q_hot, i0], by norm_num [Q_cold, i0],
    by norm_num [dT1, i0], by norm_num [dT2, i0], ?_, ?_,
    by norm_num [C_min, C_hot, C_cold, i0], by norm_num [C_hot, i0],
    by norm_num [C_ratio, C_min, C_max, C_hot, C_cold, i0],
    by norm_num [effectiveness, Q, Q_avg, Q_hot, Q_cold, Q_max, C_min,
      C_hot, C_cold, i0],
    ?_,
    by norm_num [heat_balance_error, Q_avg, Q_hot, Q_cold, i0, abs_of_nonneg]⟩
  · obtain ⟨h1, h2⟩ := lmtd_i0_bounds
    rw [abs_lt]
    constructor <;> nlinarith
  · obtain ⟨h1, h2⟩ := a_i0_bounds
    rw [abs_lt]
    constructor <;> nlinarith
  · obtain ⟨h1, h2⟩ := ntu_i0_bounds
    rw [abs_lt]
    constructor <;> nlinarith

/-- Counterexample to claim C2: at the default input with
`Tc_out = 25 = Tc_in`, switching the configuration changes nothing —
`dT1`, `dT2`, `LMTD`, `A` and `NTU` are all identical for the two
configurations, so they do not "change between the two evaluations" for
every input record. -/
theorem config_switch_counterexample :
    (evaluate .Counterflow iEq).dT1 = (evaluate .ParallelFlow iEq).dT1 ∧
    (evaluate .Counterflow iEq).dT2 = (evaluate .ParallelFlow iEq).dT2 ∧
    (evaluate .Counterflow iEq).LMTD = (evaluate .ParallelFlow iEq).LMTD ∧
    (evaluate .Counterflow iEq).A = (evaluate .ParallelFlow iEq).A ∧
    (evaluate .Counterflow iEq).NTU = (evaluate .ParallelFlow iEq).NTU := by
  have h1 : dT1 .Counterflow iEq = dT1 .ParallelFlow iEq := by
    norm_num [dT1, iEq, i0]
  have h2 : dT2 .Counterflow iEq = dT2 .ParallelFlow iEq := by
    norm_num [dT2, iEq, i0]
  have hL : LMTD .Counterflow iEq = LMTD .ParallelFlow iEq := by
    unfold LMTD
    rw [h1, h2]
  have hA : A .Counterflow iEq = A .ParallelFlow iEq := by
    unfold A
    rw [hL]
  have hN : NTU .Counterflow iEq = NTU .ParallelFlow iEq := by
    unfold NTU
    rw [hA]
  exact ⟨h1, h2, hL, hA, hN⟩

/-- The counterflow LMTD of `iDeg` comes from the degenerate branch. -/
lemma lmtd_iDeg_counterflow : LMTD .Counterflow iDeg = 65 := by
  have hcond : |dT1 .Counterflow iDeg - dT2 .Counterflow iDeg| < 1e-6 := by
    norm_num [dT1, dT2, iDeg, i0]
  have e1 : dT1 .Counterflow iDeg = 65 := by norm_num [dT1, iDeg, i0]
  unfold LMTD
  rw [if_pos hcond, e1]
  norm_num

/-- The parallel-flow LMTD of `iDeg` in closed form. -/
lemma lmtd_iDeg_parallel : LMTD .ParallelFlow iDeg = 120 / Real.log 25 := by
  have hcond : ¬ |dT1 .ParallelFlow iDeg - dT2 .ParallelFlow iDeg| < 1e-6 := by
    norm_num [dT1, dT2, iDeg, i0]
  have e1 : dT1 .ParallelFlow iDeg = 125 := by norm_num [dT1, iDeg, i0]
  have e2 : dT2 .ParallelFlow iDeg = 5 := by norm_num [dT2, iDeg, i0]
  unfold LMTD
  rw [if_neg hcond, e1, e2]
  push_cast
  rw [show ((125:ℝ) - 5) = 120 by norm_num, show ((125:ℝ) / 5) = 25 by norm_num]

/-- The parallel-flow LMTD of `iDeg` is positive and below 44. -/
lemma lmtd_iDeg_parallel_bounds :
    0 < LMTD .ParallelFlow iDeg ∧ LMTD .ParallelFlow iDeg < 44 := by
  rw [lmtd_iDeg_parallel]
  have hl := log_25_gt
  have hpos : (0:ℝ) < Real.log 25 := lt_trans (by norm_num) hl
  constructor
  · positivity
  · rw [div_lt_iff₀ hpos]
    nlinarith

/-- Cast evaluations at `iDeg`. -/
lemma q_iDeg_cast : (Q iDeg : ℝ) = 689700 := by
  norm_num [Q, Q_avg, Q_hot, Q_cold, iDeg, i0]

lemma u_iDeg_cast : (iDeg.U : ℝ) = 500 := by norm_num [iDeg, i0]

lemma cmin_iDeg_cast : (C_min iDeg : ℝ) = 10450 := by
  norm_num [C_min, C_hot, C_cold, iDeg, i0]

/-- The counterflow area of `iDeg` is below 22. -/
lemma a_iDeg_counterflow_lt : A .Counterflow iDeg < 22 := by
  unfold A
  rw [q_iDeg_cast, u_iDeg_cast, lmtd_iDeg_counterflow]
  norm_num

/-- The parallel-flow area of `iDeg` is above 31. -/
lemma a_iDeg_parallel_gt : 31 < A .ParallelFlow iDeg := by
  obtain ⟨hp, hl⟩ := lmtd_iDeg_parallel_bounds
  unfold A
  rw [q_iDeg_cast, u_iDeg_cast]
  rw [lt_div_iff₀ (by positivity)]
  nlinarith

/-- Claim C2, amended: for every input, switching the configuration leaves
`Q_hot`, `Q_cold`, `C_min`, `C_max`, `C_ratio` and `effectiveness`
unchanged; `dT1` and `dT2` agree between the two configurations exactly
when `Tc_in = Tc_out` (so they do not change for every input, only when
`Tc_in ≠ Tc_out`); and there are inputs — e.g. `iDeg` — where `dT1`,
`dT2`, `LMTD`, `A` and `NTU` all change. -/
theorem config_switch_amended :
    (∀ i : Input,
      (evaluate .Counterflow i).Q_hot = (evaluate .ParallelFlow i).Q_hot ∧
      (evaluate .Counterflow i).Q_cold = (evaluate .ParallelFlow i).Q_cold ∧
      (evaluate .Counterflow i).C_min = (evaluate .ParallelFlow i).C_min ∧
      (evaluate .Counterflow i).C_max = (evaluate .ParallelFlow i).C_max ∧
      (evaluate .Counterflow i).C_ratio = (evaluate .ParallelFlow i).C_ratio ∧
      (evaluate .Counterflow i).effectiveness
          = (evaluate .ParallelFlow i).effectiveness ∧
      ((evaluate .Counterflow i).dT1 = (evaluate .ParallelFlow i).dT1 ↔
        i.Tc_in = i.Tc_out) ∧
      ((evaluate .Counterflow i).dT2 = (evaluate .ParallelFlow i).dT2 ↔
        i.Tc_in = i.Tc_out)) ∧
    ((evaluate .Counterflow iDeg).dT1 ≠ (evaluate .ParallelFlow iDeg).dT1 ∧
      (evaluate .Counterflow iDeg).dT2 ≠ (evaluate .ParallelFlow iDeg).dT2 ∧
      (evaluate .Counterflow iDeg).LMTD ≠ (evaluate .ParallelFlow iDeg).LMTD ∧
      (evaluate .Counterflow iDeg).A ≠ (evaluate .ParallelFlow iDeg).A ∧
      (evaluate .Counterflow iDeg).NTU ≠ (evaluate .ParallelFlow iDeg).NTU) := by
  constructor
  · intro i
    refine ⟨rfl, rfl, rfl, rfl, rfl, rfl, ?_, ?_⟩
    · show dT1 .Counterflow i = dT1 .ParallelFlow i ↔ i.Tc_in = i.Tc_out
      simp only [dT1]
      constructor <;> intro h <;> linarith
    · show dT2 .Counterflow i = dT2 .ParallelFlow i ↔ i.Tc_in = i.Tc_out
      simp only [dT2]
      constructor <;> intro h <;> linarith
  · have hL : LMTD .Counterflow iDeg ≠ LMTD .ParallelFlow iDeg := by
      rw [lmtd_iDeg_counterflow]
      obtain ⟨hp, hl⟩ := lmtd_iDeg_parallel_bounds
      intro h
      rw [← h] at hl
      norm_num at hl
    have hA : A .Counterflow iDeg ≠ A .ParallelFlow iDeg := by
      have h1 := a_iDeg_counterflow_lt
      have h2 := a_iDeg_parallel_gt
      intro h
      rw [h] at h1
      linarith
    have hN : NTU .Counterflow iDeg ≠ NTU .ParallelFlow iDeg := by
      have h1 := a_iDeg_counterflow_lt
      have h2 := a_iDeg_parallel_gt
      unfold NTU
      rw [u_iDeg_cast, cmin_iDeg_cast]
      intro h
      rw [div_eq_div_iff (by norm_num) (by norm_num)] at h
      nlinarith
    exact ⟨by norm_num [evaluate, dT1, iDeg, i0],
      by norm_num [evaluate, dT2, iDeg, i0], hL, hA, hN⟩

/-- Claim C10: because `A = Q / (U * LMTD)`, the factor `U` cancels in
`NTU = U * A / C_min`, so `NTU = Q / (LMTD * C_min)` and `NTU` does not
depend on the value of `U`. -/
theorem ntu_cancels_U (cfg : Config) (i : Input) (hU : i.U ≠ 0)
    (_hL : LMTD cfg i ≠ 0) (_hC : C_min i ≠ 0) :
    NTU cfg i = (Q i : ℝ) / (LMTD cfg i * (C_min i : ℝ)) ∧
      ∀ u : ℚ, u ≠ 0 → NTU cfg { i with U := u } = NTU cfg i := by
  have key : ∀ j : Input, (j.U : ℝ) ≠ 0 →
      NTU cfg j = (Q j : ℝ) / (LMTD cfg j * (C_min j : ℝ)) := by
    intro j hUj
    unfold NTU A
    rcases eq_or_ne ((C_min j : ℚ) : ℝ) 0 with hCj | hCj
    · rw [hCj]
      simp
    · rcases eq_or_ne (LMTD cfg j) 0 with hLj | hLj
      · rw [hLj]
        simp
      · field_simp
        ring
  refine ⟨key i (by exact_mod_cast hU), fun u hu => ?_⟩
  rw [key { i with U := u } (by exact_mod_cast hu), key i (by exact_mod_cast hU)]
  rfl

/-- Witness for C10 at `iDeg` (whose counterflow `LMTD = 65 ≠ 0`): the
`NTU` identity holds and replacing `U = 500` by `U = 250` leaves `NTU`
unchanged. -/
theorem ntu_cancels_U_witness :
    NTU .Counterflow iDeg
        = (Q iDeg : ℝ) / (LMTD .Counterflow iDeg * (C_min iDeg : ℝ)) ∧
      NTU .Counterflow { iDeg with U := 250 } = NTU .Counterflow iDeg := by
  have h := ntu_cancels_U .Counterflow iDeg (by norm_num [iDeg, i0])
    (by rw [lmtd_iDeg_counterflow]; norm_num)
    (by norm_num [C_min, C_hot, C_cold, iDeg, i0])
  exact ⟨h.1, h.2 250 (by norm_num)⟩

/-- The first sample position of `linspace (m+2)` is `x = 0`. -/
lemma linspace_head (m : ℕ) : (linspace (m + 2)).head? = some 0 := by
  unfold linspace
  rw [List.head?_map, List.range_succ_eq_map]
  simp

/-- The last sample position of `linspace (m+2)` is `x = 1`. -/
lemma linspace_getLast (m : ℕ) : (linspace (m + 2)).getLast? = some 1 := by
  unfold linspace
  rw [show List.range (m + 2) = List.range (m + 1) ++ [m + 1] from
    List.range_succ (m + 1)]
  simp only [List.map_append, List.map_cons, List.map_nil]
  rw [List.getLast?_concat]
  push_cast
  rw [show ((m:ℚ) + 2 - 1) = (m:ℚ) + 1 by ring,
    div_self (by positivity : ((m:ℚ) + 1) ≠ 0)]

/-- The first profile sample is taken at `x = 0`. -/
lemma profile_head (cfg : Config) (i : Input) (m : ℕ) :
    (profile cfg i (m + 2)).head?
      = some (0, Th_profile i 0, Tc_profile cfg i 0) := by
  unfold profile
  rw [List.head?_map, linspace_head]
  rfl

/-- The last profile sample is taken at `x = 1`. -/
lemma profile_getLast (cfg : Config) (i : Input) (m : ℕ) :
    (profile cfg i (m + 2)).getLast?
      = some (1, Th_profile i 1, Tc_profile cfg i 1) := by
  unfold profile
  rw [List.getLast?_map, linspace_getLast]
  rfl

/-- Claim C8: for every requested point count `n ≥ 2` (the source fixes
`n = 50`), the temperature profile has exactly `n` samples; its first
sample, at `x = 0`, is `(Th_in, Tc_out)` for counterflow and
`(Th_in, Tc_in)` for parallel flow; its last sample, at `x = 1`, is
`(Th_out, Tc_in)` for counterflow and `(Th_out, Tc_out)` for parallel
flow; and the generator is a pure function, so repeated calls with
identical inputs return identical sequences. -/
theorem profile_endpoints (i : Input) (n : ℕ) (hn : 2 ≤ n) :
    (profile .Counterflow i n).length = n ∧
    (profile .ParallelFlow i n).length = n ∧
    (profile .Counterflow i n).head? = some (0, i.Th_in, i.Tc_out) ∧
    (profile .ParallelFlow i n).head? = some (0, i.Th_in, i.Tc_in) ∧
    (profile .Counterflow i n).getLast? = some (1, i.Th_out, i.Tc_in) ∧
    (profile .ParallelFlow i n).getLast? = some (1, i.Th_out, i.Tc_out) ∧
    profile .Counterflow i n = profile .Counterflow i n ∧
    profile .ParallelFlow i n = profile .ParallelFlow i n := by
  obtain ⟨m, rfl⟩ : ∃ m, n = m + 2 := ⟨n - 2, by omega⟩
  refine ⟨?_, ?_, ?_, ?_, ?_, ?_, rfl, rfl⟩
  · unfold profile linspace
    rw [List.length_map, List.length_map, List.length_range]
  · unfold profile linspace
    rw [List.length_map, List.length_map, List.length_range]
  · rw [profile_head]
    simp only [Th_profile, Tc_profile, Option.some_inj, Prod.mk.injEq]
    exact ⟨trivial, by ring, by ring⟩
  · rw [profile_head]
    simp only [Th_profile, Tc_profile, Option.some_inj, Prod.mk.injEq]
    exact ⟨trivial, by ring, by ring⟩
  · rw [profile_getLast]
    simp only [Th_profile, Tc_profile, Option.some_inj, Prod.mk.injEq]
    exact ⟨trivial, by ring, by ring⟩
  · rw [profile_getLast]
    simp only [Th_profile, Tc_profile, Option.some_inj, Prod.mk.injEq]
    exact ⟨trivial, by ring, by ring⟩

/-- Witness for C8 at the default input with `n = 2`. -/
theorem profile_endpoints_witness :
    (profile .Counterflow i0 2).length = 2 ∧
    (profile .ParallelFlow i0 2).length = 2 ∧
    (profile .Counterflow i0 2).head? = some (0, i0.Th_in, i0.Tc_out) ∧
    (profile .ParallelFlow i0 2).head? = some (0, i0.Th_in, i0.Tc_in) ∧
    (profile .Counterflow i0 2).getLast? = some (1, i0.Th_out, i0.Tc_in) ∧
    (profile .ParallelFlow i0 2).getLast? = some (1, i0.Th_out, i0.Tc_out) ∧
    profile .Counterflow i0 2 = profile .Counterflow i0 2 ∧
    profile .ParallelFlow i0 2 = profile .ParallelFlow i0 2 :=
  profile_endpoints i0 2 (by norm_num)

end HeatExchanger
